import Mathlib

/-!
Shallow embedding of `src/main.py` of the F5-Spanish TTS API.

The service is a thin HTTP wrapper around one external inference call.
We model the request handlers as pure Lean functions over an explicit
environment `Env` that supplies the behaviour of the external collaborators
(the model's `infer` method, the `soundfile` WAV encoder, the OS `unlink`
call, and the wall clock).  Each handler returns, besides its HTTP result,
the list of observable side effects it performed (`Event`) and the set of
request-scoped scratch files that still exist when it returns.

Conventions of the embedding:
  * scratch file paths are natural numbers: `0` is the reference-audio
    temp file (`temp_audio_path`), `1` is the output temp file
    (`temp_output.name`); `tempfile.NamedTemporaryFile` names are unique
    per request, so within one request two fixed fresh names suffice;
  * Python floats that are only passed through, never computed with
    (`speed`), are modelled by an uninterpreted numeric code;
  * wall-clock readings are natural numbers; `time.time()` samples are
    fields of `Env` (`t1` for the read at the start of the try block,
    `t2` for the read after base64 encoding, `tArrival` for the moment the
    HTTP request arrived, which the handler never reads);
  * exceptions of external calls are `Except String` values (or, for the
    upload-save step and the unlink calls, dedicated `Env` fields).
-/

/-- Python's `str.strip()` whitespace test, i.e. `str.isspace()`: the ASCII
whitespace (space, tab, LF, VT, FF, CR), the information separators
U+001C-U+001F, NEL (U+0085), NBSP (U+00A0), Ogham space mark (U+1680), the
Unicode space separators U+2000-U+200A, the line and paragraph separators
U+2028/U+2029, narrow no-break space (U+202F), medium mathematical space
(U+205F) and ideographic space (U+3000); `src/main.py` strips only to
test emptiness. -/
def pyIsSpace (c : Char) : Bool :=
  c = ' ' || c = '\t' || c = '\n' || c = '\r' || c = '\x0b' || c = '\x0c'
  || c = '\x1c' || c = '\x1d' || c = '\x1e' || c = '\x1f'
  || c = '\x85' || c = '\xa0' || c = '\u1680'
  || (0x2000 ≤ c.toNat && c.toNat ≤ 0x200a)
  || c = '\u2028' || c = '\u2029' || c = '\u202f' || c = '\u205f' || c = '\u3000'

/-- Python's `s.strip()`: drop leading and trailing whitespace. -/
def pyStrip (s : String) : String :=
  String.mk (((s.toList.dropWhile pyIsSpace).reverse.dropWhile pyIsSpace).reverse)

/-- The base64 alphabet of RFC 4648, as used by `base64.b64encode`. -/
def base64Alphabet : List Char :=
  String.toList "ABCDEFGHIJKLMNOPQRSTUVWXYZabcdefghijklmnopqrstuvwxyz0123456789+/"

/-- Character of the base64 alphabet at a 6-bit index. -/
def b64c (n : Nat) : Char :=
  base64Alphabet.getD n 'A'

/-- Standard base64 of a byte list (`base64.b64encode`), as characters. -/
def base64Chars : List Nat → List Char
  | [] => []
  | [a] => [b64c (a / 4), b64c (a % 4 * 16), '=', '=']
  | [a, b] => [b64c (a / 4), b64c (a % 4 * 16 + b / 16), b64c (b % 16 * 4), '=']
  | a :: b :: c :: rest =>
      b64c (a / 4) :: b64c (a % 4 * 16 + b / 16) ::
      b64c (b % 16 * 4 + c / 64) :: b64c (c % 64) :: base64Chars rest

/-- Encoding `base64.b64encode(bytes).decode('utf-8')` from `src/main.py` line 173. -/
def base64Encode (bs : List Nat) : String :=
  String.mk (base64Chars bs)

/-- The external model handle constructed by `F5TTS(model_type="F5-TTS", ...)`. -/
structure F5TTS where
  model_type : String
  deriving DecidableEq

/-- The compute device; the deployment fixes `torch.device("cpu")`. -/
inductive Device where
  | cpu
  deriving DecidableEq

/-- Rendering `str(device) if device else "No disponible"` from the root endpoint. -/
def deviceStr : Option Device → String
  | some Device.cpu => "cpu"
  | none => "No disponible"

/-- The multipart form of `POST /synthesize`: `text`, `ref_audio` (bytes of
the upload), `ref_text`, `speed` (float passed through, uninterpreted code),
`remove_silence`. -/
structure SynthRequest where
  text : String
  ref_audio : List Nat
  ref_text : String
  speed : Nat
  remove_silence : Bool
  deriving DecidableEq

/-- Arguments of the external call `model.infer(ref_audio=..., ref_text=...,
gen_text=..., speed=..., remove_silence=...)`; `ref_audio` is the scratch
file path. -/
structure InferArgs where
  ref_audio : Nat
  ref_text : String
  gen_text : String
  speed : Nat
  remove_silence : Bool
  deriving DecidableEq

/-- The `infer` arguments `src/main.py` builds for a request: the reference
audio scratch path (file `0`), the reference transcript, the target text
and the pass-through generation parameters. -/
def mkInferArgs (req : SynthRequest) : InferArgs :=
  { ref_audio := 0
    ref_text := req.ref_text
    gen_text := req.text
    speed := req.speed
    remove_silence := req.remove_silence }

/-- What `model.infer` returns: either a `torch.Tensor` or an array-like,
both wrapping the waveform samples (`isinstance(audio_data, torch.Tensor)`
branch at lines 158-161). -/
inductive AudioData where
  | tensor (waveform : List Int)
  | ndarray (waveform : List Int)
  deriving DecidableEq

/-- The normalisation `audio_data.cpu().numpy()` vs. identity: both expose
the same numeric waveform. -/
def toNumpy : AudioData → List Int
  | AudioData.tensor w => w
  | AudioData.ndarray w => w

/-- Observable side effects of a request handler. -/
inductive Event where
  /-- the call `await ref_audio.read()` consumed the uploaded bytes. -/
  | uploadRead
  /-- a `tempfile.NamedTemporaryFile(delete=False)` scratch file was created
  (and written) at this path. -/
  | tempCreate (path : Nat)
  /-- the method `model.infer` was invoked with these arguments. -/
  | inferCall (args : InferArgs)
  /-- the call `os.unlink(path)` was attempted; `ok` records whether it succeeded. -/
  | tempUnlink (path : Nat) (ok : Bool)
  deriving DecidableEq

/-- The behaviour of everything outside the handler's own code: whether the
upload-save step raises (`uploadErr` is the exception message raised by
`await ref_audio.read()` or `temp_audio.write(content)` at lines 135-136,
`none` when the step completes), the external model, the WAV encoder
(`sf.write` at a given rate followed by reading the bytes back), the OS
unlink call, and the wall clock.  `tArrival` is the time the HTTP request
arrived; the handler's code never reads it. -/
structure Env where
  infer : F5TTS → InferArgs → Except String AudioData
  wavEncode : List Int → Nat → Except String (List Nat)
  uploadErr : Option String
  unlinkFails : Nat → Bool
  tArrival : Nat
  t1 : Nat
  t2 : Nat

/-- An HTTP error as raised by `HTTPException(status_code=..., detail=...)`. -/
structure HTTPError where
  status : Nat
  detail : String
  deriving DecidableEq

/-- The JSON envelope returned by a successful `/synthesize` call
(lines 178-186). -/
structure SynthResponse where
  success : Bool
  audio_base64 : String
  format : String
  sample_rate : Nat
  processing_time : Int
  text_length : Nat
  ref_text : String
  deriving DecidableEq

deriving instance DecidableEq for Except

/-- Result, side-effect trace and surviving scratch files of one
`/synthesize` call. -/
structure Outcome where
  result : Except HTTPError SynthResponse
  events : List Event
  files : List Nat
  deriving DecidableEq

/-- Scratch files surviving the `finally` cleanup (lines 188-195): `try:
os.unlink(temp_audio_path); if 'temp_output' in locals(): os.unlink(
temp_output.name); except: pass`.  If the first unlink raises, the second
is never attempted; all failures are swallowed. -/
def cleanupFs (env : Env) (hasOutput : Bool) (fs : List Nat) : List Nat :=
  if env.unlinkFails 0 then fs
  else if hasOutput then
    (if env.unlinkFails 1 then (fs.erase 0) else ((fs.erase 0).erase 1))
  else fs.erase 0

/-- The unlink attempts recorded by the same cleanup step. -/
def cleanupEvs (env : Env) (hasOutput : Bool) : List Event :=
  if env.unlinkFails 0 then [Event.tempUnlink 0 false]
  else if hasOutput then
    (if env.unlinkFails 1 then [Event.tempUnlink 0 true, Event.tempUnlink 1 false]
     else [Event.tempUnlink 0 true, Event.tempUnlink 1 true])
  else [Event.tempUnlink 0 true]

/-- The `POST /synthesize` handler (`synthesize_speech`, lines 109-199).
Control flow mirrors the source: 503 guard on the global model handle, 400
guards on stripped `text` and `ref_text`, then the outer try block: the
`with NamedTemporaryFile` statement creates scratch file `0` and the
upload is read and written into it (lines 134-137) — if that read or write
raises, the inner try was never entered, so its `finally` does not run,
the outer `except` converts the exception into a 500, and scratch file `0`
is left behind; otherwise the inner try calls `model.infer`, normalises
the waveform, writes it with `sf.write(..., 24000)` to scratch file `1`,
reads the WAV bytes back, base64-encodes them and returns the envelope,
and the inner `finally` cleans up the scratch files on success and on any
inference or encoding exception, which the outer `except` turns into a
500 carrying its message. -/
def synthesize_speech (env : Env) (mdl : Option F5TTS) (req : SynthRequest) : Outcome :=
  match mdl with
  | none =>
      { result := Except.error { status := 503, detail := "Modelo no cargado" }
        events := []
        files := [] }
  | some m =>
      if (pyStrip req.text).isEmpty then
        { result := Except.error { status := 400, detail := "Texto requerido" }
          events := []
          files := [] }
      else if (pyStrip req.ref_text).isEmpty then
        { result := Except.error
            { status := 400, detail := "Transcripción del audio de referencia requerida" }
          events := []
          files := [] }
      else
        match env.uploadErr with
        | some e =>
            { result := Except.error { status := 500, detail := "Error en síntesis: " ++ e }
              events := [Event.tempCreate 0, Event.uploadRead]
              files := [0] }
        | none =>
            match env.infer m (mkInferArgs req) with
            | Except.error e =>
                { result := Except.error { status := 500, detail := "Error en síntesis: " ++ e }
                  events := [Event.tempCreate 0, Event.uploadRead,
                             Event.inferCall (mkInferArgs req)]
                              ++ cleanupEvs env false
                  files := cleanupFs env false [0] }
            | Except.ok audio =>
                match env.wavEncode (toNumpy audio) 24000 with
                | Except.error e =>
                    { result := Except.error
                        { status := 500, detail := "Error en síntesis: " ++ e }
                      events := [Event.tempCreate 0, Event.uploadRead,
                                 Event.inferCall (mkInferArgs req), Event.tempCreate 1]
                                  ++ cleanupEvs env true
                      files := cleanupFs env true [0, 1] }
                | Except.ok wavBytes =>
                    { result := Except.ok
                        { success := true
                          audio_base64 := base64Encode wavBytes
                          format := "wav"
                          sample_rate := 24000
                          processing_time := (env.t2 : Int) - (env.t1 : Int)
                          text_length := req.text.length
                          ref_text := req.ref_text }
                      events := [Event.tempCreate 0, Event.uploadRead,
                                 Event.inferCall (mkInferArgs req), Event.tempCreate 1]
                                  ++ cleanupEvs env true
                      files := cleanupFs env true [0, 1] }

/-- The JSON envelope of a successful `POST /test-synthesis` (lines 221-227). -/
structure TestResponse where
  success : Bool
  message : String
  processing_time : Int
  test_text : String
  model_ready : Bool
  deriving DecidableEq

/-- The `POST /test-synthesis` handler (`test_synthesis`, lines 201-231):
503 guard on the model handle, then a fixed success envelope with two clock
samples taken back to back; no file is touched and `model.infer` is never
called, so the event trace is empty by construction (the source body
contains no such call). -/
def test_synthesis (mdl : Option F5TTS) (t1 t2 : Nat) :
    Except HTTPError TestResponse × List Event :=
  match mdl with
  | none => (Except.error { status := 503, detail := "Modelo no cargado" }, [])
  | some _ =>
      (Except.ok
        { success := true
          message := "Modelo funcionando correctamente"
          processing_time := (t2 : Int) - (t1 : Int)
          test_text := "Hola, esta es una prueba de síntesis de voz."
          model_ready := true }, [])

/-- The module-level globals of `src/main.py` (lines 31-34):
`model = None`, `vocoder = None`, `device = None`. -/
structure Globals where
  model : Option F5TTS
  vocoder : Option Unit
  device : Option Device
  deriving DecidableEq

/-- The module state right after import, before `startup_event` runs. -/
def startupGlobals : Globals :=
  { model := none, vocoder := none, device := none }

/-- External behaviour driving `load_model`: whether the first
`from f5_tts.api import F5TTS` succeeds, whether the `pip install`
subprocess in `install_f5_tts` succeeds (on failure that helper logs and
re-raises), whether the import retried after installation succeeds, and
whether the `F5TTS(...)` constructor raises. -/
structure LoadEnv where
  importOk1 : Bool
  installOk : Bool
  importOk2 : Bool
  constructErr : Option String
  deriving DecidableEq

/-- Steps attempted by `load_model` / `install_f5_tts`. -/
inductive LoadEvent where
  | importAttempt
  | installAttempt
  | constructAttempt
  deriving DecidableEq, BEq

/-- The loader `load_model` (lines 49-79) together with `install_f5_tts` (lines 36-47).
It sets the global `device` to cpu, imports the external dependency —
retrying exactly once after a single `pip install` attempt if the
first import fails — constructs `F5TTS(model_type="F5-TTS", ...)` into the global
`model`, and returns `True`; any exception is caught by the outer handler,
which logs and returns `False`, leaving `model` unassigned. -/
def load_model (env : LoadEnv) (g : Globals) : Globals × Bool × List LoadEvent :=
  let g1 := { g with device := some Device.cpu }
  if env.importOk1 then
    match env.constructErr with
    | some _ =>
        (g1, false, [LoadEvent.importAttempt, LoadEvent.constructAttempt])
    | none =>
        ({ g1 with model := some { model_type := "F5-TTS" } }, true,
         [LoadEvent.importAttempt, LoadEvent.constructAttempt])
  else
    if env.installOk then
      if env.importOk2 then
        match env.constructErr with
        | some _ =>
            (g1, false,
             [LoadEvent.importAttempt, LoadEvent.installAttempt,
              LoadEvent.importAttempt, LoadEvent.constructAttempt])
        | none =>
            ({ g1 with model := some { model_type := "F5-TTS" } }, true,
             [LoadEvent.importAttempt, LoadEvent.installAttempt,
              LoadEvent.importAttempt, LoadEvent.constructAttempt])
      else
        (g1, false,
         [LoadEvent.importAttempt, LoadEvent.installAttempt, LoadEvent.importAttempt])
    else
      (g1, false, [LoadEvent.importAttempt, LoadEvent.installAttempt])

/-- A response of any of the four endpoints, for the dispatch model. -/
inductive ApiResponse where
  | rootResp (message : String) (model_loaded : Bool) (device : String)
  | healthResp (status : String) (model_ready : Bool) (timestamp : Nat)
  | synthResp (o : Outcome)
  | testResp (r : Except HTTPError TestResponse)

/-- The `GET /` handler (lines 91-98); it only reads the globals. -/
def root_endpoint (g : Globals) : Globals × ApiResponse :=
  (g, ApiResponse.rootResp "F5-Spanish TTS API funcionando" g.model.isSome (deviceStr g.device))

/-- The `GET /health` handler (lines 100-107); it only reads the globals. -/
def health_check (g : Globals) (now : Nat) : Globals × ApiResponse :=
  (g, ApiResponse.healthResp "healthy" g.model.isSome now)

/-- One inbound HTTP request after startup. -/
inductive Request where
  | root
  | health (now : Nat)
  | synthesize (env : Env) (req : SynthRequest)
  | testSynthesis (t1 t2 : Nat)

/-- Serving one request: each handler reads the global `model` (and
`device`) but none of them assigns any global. -/
def serve (g : Globals) (r : Request) : Globals × ApiResponse :=
  match r with
  | Request.root => root_endpoint g
  | Request.health now => health_check g now
  | Request.synthesize env req => (g, ApiResponse.synthResp (synthesize_speech env g.model req))
  | Request.testSynthesis t1 t2 => (g, ApiResponse.testResp (test_synthesis g.model t1 t2).1)

/-- Serving a whole sequence of requests, threading the global state. -/
def serveAll (g : Globals) (rs : List Request) : Globals :=
  rs.foldl (fun s r => (serve s r).1) g

/-- Concrete model handle used by witnesses. -/
def mWit : F5TTS := { model_type := "F5-TTS" }

/-- Concrete environment used by witnesses: the upload save, inference and
WAV encoding succeed, unlink never fails, the clock reads 2 then 5. -/
def envWit : Env :=
  { infer := fun _ _ => Except.ok (AudioData.tensor [3, 5])
    wavEncode := fun _ _ => Except.ok [82, 73, 70, 70]
    uploadErr := none
    unlinkFails := fun _ => false
    tArrival := 0
    t1 := 2
    t2 := 5 }

/-- Concrete environment in which `await ref_audio.read()` raises while
saving the upload (lines 135-136), with every OS delete still succeeding. -/
def envLeakWit : Env :=
  { envWit with uploadErr := some "connection reset" }

/-- Concrete valid request used by witnesses. -/
def reqWit : SynthRequest :=
  { text := "Hola mundo", ref_audio := [1, 2], ref_text := "prueba"
    speed := 1, remove_silence := true }

/-- The response `synthesize_speech envWit (some mWit) reqWit` produces. -/
def respWit : SynthResponse :=
  { success := true, audio_base64 := "UklGRg==", format := "wav"
    sample_rate := 24000, processing_time := 3, text_length := 10
    ref_text := "prueba" }

/-- C1: with the process-wide model handle unset, every `/synthesize`
request fails with the 503 "Modelo no cargado" error and performs no side
effect, for arbitrary inputs — in particular the readiness guard fires
before any input validation, since this holds also for blank `text` or
`ref_text`. -/
theorem synthesize_unready_always_503 (env : Env) (req : SynthRequest) :
    synthesize_speech env none req =
      { result := Except.error { status := 503, detail := "Modelo no cargado" }
        events := []
        files := [] } := rfl

/-- C2: with the model loaded, a `text` or `ref_text` that is empty or
whitespace-only after stripping is rejected with a 400 error, and the
handler performs no side effect at all — in particular it never reaches
the inference call. -/
theorem synthesize_blank_input_400 (env : Env) (m : F5TTS) (req : SynthRequest)
    (h : (pyStrip req.text).isEmpty = true ∨ (pyStrip req.ref_text).isEmpty = true) :
    (∃ d, (synthesize_speech env (some m) req).result =
        Except.error { status := 400, detail := d })
    ∧ (synthesize_speech env (some m) req).events = []
    ∧ (synthesize_speech env (some m) req).files = [] := by
  by_cases ht : (pyStrip req.text).isEmpty
  · refine ⟨⟨"Texto requerido", ?_⟩, ?_, ?_⟩ <;> simp [synthesize_speech, ht]
  · rcases h with h | h
    · exact absurd h ht
    · refine ⟨⟨"Transcripción del audio de referencia requerida", ?_⟩, ?_, ?_⟩ <;>
        simp [synthesize_speech, ht, h]

/-- C2 witness: a whitespace-only `text` (space, file separator U+001C, em
space U+2003) with the model loaded is rejected with a 400 and an empty
effect trace. -/
theorem synthesize_blank_input_400_witness :
    (∃ d, (synthesize_speech envWit (some mWit)
        { reqWit with text := " \x1c\u2003" }).result =
        Except.error { status := 400, detail := d })
    ∧ (synthesize_speech envWit (some mWit)
        { reqWit with text := " \x1c\u2003" }).events = []
    ∧ (synthesize_speech envWit (some mWit)
        { reqWit with text := " \x1c\u2003" }).files = [] :=
  synthesize_blank_input_400 envWit mWit
    { reqWit with text := " \x1c\u2003" } (Or.inl rfl)

/-- C3: on every successful synthesis (model loaded, both texts non-blank,
upload save, inference and WAV encoding return without raising) the
response carries `success = true`, `format = "wav"`, `sample_rate = 24000`,
and its audio payload is exactly the base64 encoding of the bytes the WAV
encoder produced at the hard-coded 24000 Hz rate — for every request,
hence independently of the uploaded reference audio's own rate or
format. -/
theorem synthesize_success_wav_24k (env : Env) (m : F5TTS) (req : SynthRequest)
    (a : AudioData) (bytes : List Nat)
    (ht : (pyStrip req.text).isEmpty = false)
    (hr : (pyStrip req.ref_text).isEmpty = false)
    (hup : env.uploadErr = none)
    (hi : env.infer m (mkInferArgs req) = Except.ok a)
    (hw : env.wavEncode (toNumpy a) 24000 = Except.ok bytes) :
    ∃ resp, (synthesize_speech env (some m) req).result = Except.ok resp
      ∧ resp.success = true ∧ resp.format = "wav" ∧ resp.sample_rate = 24000
      ∧ resp.audio_base64 = base64Encode bytes := by
  refine ⟨{ success := true, audio_base64 := base64Encode bytes, format := "wav"
            sample_rate := 24000, processing_time := (env.t2 : Int) - (env.t1 : Int)
            text_length := req.text.length, ref_text := req.ref_text },
          ?_, rfl, rfl, rfl, rfl⟩
  simp [synthesize_speech, ht, hr, hup, hi, hw]

/-- C3 witness: the concrete successful call returns the wav/24000 envelope
with the base64 of the encoder's bytes. -/
theorem synthesize_success_wav_24k_witness :
    ∃ resp, (synthesize_speech envWit (some mWit) reqWit).result = Except.ok resp
      ∧ resp.success = true ∧ resp.format = "wav" ∧ resp.sample_rate = 24000
      ∧ resp.audio_base64 = base64Encode [82, 73, 70, 70] :=
  synthesize_success_wav_24k envWit mWit reqWit (AudioData.tensor [3, 5])
    [82, 73, 70, 70] rfl rfl rfl rfl rfl

/-- C4 counterexample: the claim's "no request-scoped scratch files remain
after any call" fails on the code.  On a validation-passing request whose
upload-save step raises (`await ref_audio.read()` at line 135, after
`NamedTemporaryFile(delete=False)` already created the file), the inner
try/finally is never entered, the outer except returns a 500, and the
reference-audio scratch file `0` remains — even though every OS delete
would succeed. -/
theorem synthesize_scratch_cleanup_counterexample :
    (synthesize_speech envLeakWit (some mWit) reqWit).files = [0]
    ∧ (synthesize_speech envLeakWit (some mWit) reqWit).result
        = Except.error { status := 500, detail := "Error en síntesis: connection reset" }
    ∧ (∀ p, envLeakWit.unlinkFails p = false) := by
  refine ⟨rfl, rfl, fun p => rfl⟩

/-- C4 (amended): past input validation, on every exit path of the inner
try block — that is, whenever the upload-save step completes without
raising: success, inference exception, or encoding exception — and
assuming the OS deletes succeed, both request-scoped scratch files are
gone when the call returns; moreover the HTTP result is the same whatever
the unlink outcomes are, i.e. deletion failures are swallowed silently and
never change the response.  (If the upload save itself raises, the finally
block never runs and the reference-audio scratch file is leaked — see the
counterexample.) -/
theorem synthesize_scratch_cleanup (env : Env) (m : F5TTS) (req : SynthRequest)
    (hu : ∀ p, env.unlinkFails p = false)
    (hup : env.uploadErr = none) :
    (synthesize_speech env (some m) req).files = []
    ∧ ∀ g1 g2 : Nat → Bool,
        (synthesize_speech { env with unlinkFails := g1 } (some m) req).result
          = (synthesize_speech { env with unlinkFails := g2 } (some m) req).result := by
  obtain ⟨inf, wav, upe, unl, ta, s1, s2⟩ := env
  simp only at hu hup
  subst hup
  constructor
  · by_cases ht : (pyStrip req.text).isEmpty
    · simp [synthesize_speech, ht]
    · by_cases hr : (pyStrip req.ref_text).isEmpty
      · simp [synthesize_speech, ht, hr]
      · cases hi : inf m (mkInferArgs req) with
        | error e => simp [synthesize_speech, ht, hr, hi, cleanupFs, hu]
        | ok a =>
          cases hw : wav (toNumpy a) 24000 with
          | error e => simp [synthesize_speech, ht, hr, hi, hw, cleanupFs, hu]
          | ok b => simp [synthesize_speech, ht, hr, hi, hw, cleanupFs, hu]
  · intro g1 g2
    by_cases ht : (pyStrip req.text).isEmpty
    · simp [synthesize_speech, ht]
    · by_cases hr : (pyStrip req.ref_text).isEmpty
      · simp [synthesize_speech, ht, hr]
      · cases hi : inf m (mkInferArgs req) with
        | error e => simp [synthesize_speech, ht, hr, hi]
        | ok a =>
          cases hw : wav (toNumpy a) 24000 with
          | error e => simp [synthesize_speech, ht, hr, hi, hw]
          | ok b => simp [synthesize_speech, ht, hr, hi, hw]

/-- C4 witness: the concrete successful call leaves no scratch file. -/
theorem synthesize_scratch_cleanup_witness :
    (synthesize_speech envWit (some mWit) reqWit).files = [] :=
  (synthesize_scratch_cleanup envWit mWit reqWit (fun _ => rfl) rfl).1

/-- C5: every success response reports `text_length` equal to the length of
the submitted `text` exactly as submitted — `len(text)` is applied to the
raw field, with no trimming or normalisation before counting. -/
theorem synthesize_text_length_exact (env : Env) (m : F5TTS) (req : SynthRequest)
    (resp : SynthResponse)
    (h : (synthesize_speech env (some m) req).result = Except.ok resp) :
    resp.text_length = req.text.length := by
  by_cases ht : (pyStrip req.text).isEmpty
  · simp [synthesize_speech, ht] at h
  · by_cases hr : (pyStrip req.ref_text).isEmpty
    · simp [synthesize_speech, ht, hr] at h
    · cases hup : env.uploadErr with
      | some e => simp [synthesize_speech, ht, hr, hup] at h
      | none =>
        cases hi : env.infer m (mkInferArgs req) with
        | error e => simp [synthesize_speech, ht, hr, hup, hi] at h
        | ok a =>
          cases hw : env.wavEncode (toNumpy a) 24000 with
          | error e => simp [synthesize_speech, ht, hr, hup, hi, hw] at h
          | ok b =>
            simp [synthesize_speech, ht, hr, hup, hi, hw] at h
            subst h
            rfl

/-- C5 witness: the concrete successful call reports the length of
"Hola mundo". -/
theorem synthesize_text_length_exact_witness :
    respWit.text_length = reqWit.text.length :=
  synthesize_text_length_exact envWit mWit reqWit respWit (by decide)

/-- Helper for C6: the `/synthesize` handler reads the environment only
through `infer`, `wavEncode`, `uploadErr`, `unlinkFails` and the two
in-handler clock samples `t1`, `t2`; two environments agreeing on those
(but possibly differing in the request-arrival time `tArrival`) produce
identical outcomes. -/
theorem synthesize_reads_only_window (mdl : Option F5TTS) (req : SynthRequest)
    (env env' : Env)
    (h1 : env'.infer = env.infer) (h2 : env'.wavEncode = env.wavEncode)
    (h3 : env'.uploadErr = env.uploadErr)
    (h4 : env'.unlinkFails = env.unlinkFails)
    (h5 : env'.t1 = env.t1) (h6 : env'.t2 = env.t2) :
    synthesize_speech env' mdl req = synthesize_speech env mdl req := by
  obtain ⟨inf, wav, upe, unl, ta, s1, s2⟩ := env
  obtain ⟨inf', wav', upe', unl', ta', s1', s2'⟩ := env'
  simp only at h1 h2 h3 h4 h5 h6
  subst h1; subst h2; subst h3; subst h4; subst h5; subst h6
  rfl

/-- C6: every success response's `processing_time` is the difference of the
clock sample taken right after validation (just before the scratch write
and inference) and the sample taken right after base64 encoding, hence
non-negative under a monotone wall clock; and the outcome is completely
independent of the request's arrival time, so the full HTTP lifecycle is
not part of the measured window. -/
theorem synthesize_processing_time_window (env : Env) (m : F5TTS)
    (req : SynthRequest) (resp : SynthResponse)
    (hmono : env.t1 ≤ env.t2)
    (h : (synthesize_speech env (some m) req).result = Except.ok resp) :
    0 ≤ resp.processing_time
    ∧ resp.processing_time = (env.t2 : Int) - (env.t1 : Int)
    ∧ ∀ n : Nat, synthesize_speech { env with tArrival := n } (some m) req
        = synthesize_speech env (some m) req := by
  have hpt : resp.processing_time = (env.t2 : Int) - (env.t1 : Int) := by
    by_cases ht : (pyStrip req.text).isEmpty
    · simp [synthesize_speech, ht] at h
    · by_cases hr : (pyStrip req.ref_text).isEmpty
      · simp [synthesize_speech, ht, hr] at h
      · cases hup : env.uploadErr with
        | some e => simp [synthesize_speech, ht, hr, hup] at h
        | none =>
          cases hi : env.infer m (mkInferArgs req) with
          | error e => simp [synthesize_speech, ht, hr, hup, hi] at h
          | ok a =>
            cases hw : env.wavEncode (toNumpy a) 24000 with
            | error e => simp [synthesize_speech, ht, hr, hup, hi, hw] at h
            | ok b =>
              simp [synthesize_speech, ht, hr, hup, hi, hw] at h
              subst h
              rfl
  refine ⟨?_, hpt, ?_⟩
  · rw [hpt]
    exact sub_nonneg.mpr (by exact_mod_cast hmono)
  · intro n
    exact synthesize_reads_only_window (some m) req env { env with tArrival := n }
      rfl rfl rfl rfl rfl rfl

/-- C6 witness: the concrete successful call (clock 2 then 5) reports a
non-negative processing time equal to the window width 3. -/
theorem synthesize_processing_time_window_witness :
    0 ≤ respWit.processing_time ∧ respWit.processing_time = (5 : Int) - (2 : Int) := by
  have h := synthesize_processing_time_window envWit mWit reqWit respWit
    (by decide) (by decide)
  exact ⟨h.1, h.2.1⟩

/-- C7: the loader always returns a boolean (it is a total function of its
environment, so it never raises out of itself); on failure the global model
handle is left exactly as it was (unset when starting from the fresh module
state); the runtime `pip install` is attempted exactly once when and only
when the first import fails, the import is attempted at most twice (the
one retry after installation), and construction is attempted at most
once. -/
theorem load_model_single_retry (env : LoadEnv) (g : Globals) :
    ((load_model env g).2.1 = false → (load_model env g).1.model = g.model)
    ∧ (load_model env g).2.2.count LoadEvent.installAttempt
        = (if env.importOk1 then 0 else 1)
    ∧ (load_model env g).2.2.count LoadEvent.importAttempt ≤ 2
    ∧ (load_model env g).2.2.count LoadEvent.constructAttempt ≤ 1 := by
  obtain ⟨i1, iok, i2, cerr⟩ := env
  cases i1 <;> cases iok <;> cases i2 <;> cases cerr <;>
    simp [load_model, List.count_cons, List.count_nil] <;> decide

/-- C7 witness: a failed construction after a successful import leaves the
model handle unset. -/
theorem load_model_single_retry_witness :
    (load_model { importOk1 := true, installOk := true, importOk2 := true
                  constructErr := some "boom" } startupGlobals).1.model
      = startupGlobals.model :=
  (load_model_single_retry
    { importOk1 := true, installOk := true, importOk2 := true
      constructErr := some "boom" } startupGlobals).1 rfl

/-- Helper for C8: serving one request never changes the module globals. -/
theorem serve_preserves_globals (g : Globals) (r : Request) : (serve g r).1 = g := by
  cases r <;> rfl

/-- C8: the module globals are written only by the startup load step: any
sequence of requests to the four endpoints leaves the global state exactly
as it was (so after a successful load the handle stays set — READY — for
the rest of the process lifetime, and after a failed load it stays unset);
moreover, starting from the fresh module state, the model handle is set
after `load_model` if and only if the load reported success. -/
theorem globals_written_only_at_startup :
    (∀ (g : Globals) (rs : List Request), serveAll g rs = g)
    ∧ ∀ env : LoadEnv,
        (load_model env startupGlobals).1.model.isSome
          = (load_model env startupGlobals).2.1 := by
  constructor
  · intro g rs
    induction rs generalizing g with
    | nil => rfl
    | cons r rs ih =>
        have hstep : serveAll g (r :: rs) = serveAll ((serve g r).1) rs := rfl
        rw [hstep, serve_preserves_globals]
        exact ih g
  · intro env
    obtain ⟨i1, iok, i2, cerr⟩ := env
    cases i1 <;> cases iok <;> cases i2 <;> cases cerr <;> rfl

/-- C9: `/test-synthesis` is a pure readiness stub: its effect trace is
always empty (no inference call, no filesystem access); with the handle
unset it fails with the 503 error, and with the handle set it returns the
fixed success message, the fixed test text, `model_ready = true` and the
two-sample processing time, generating no audio. -/
theorem test_synthesis_pure_stub (mdl : Option F5TTS) (t1 t2 : Nat) :
    (test_synthesis mdl t1 t2).2 = []
    ∧ (test_synthesis none t1 t2).1
        = Except.error { status := 503, detail := "Modelo no cargado" }
    ∧ ∀ m : F5TTS, (test_synthesis (some m) t1 t2).1
        = Except.ok
            { success := true
              message := "Modelo funcionando correctamente"
              processing_time := (t2 : Int) - (t1 : Int)
              test_text := "Hola, esta es una prueba de síntesis de voz."
              model_ready := true } := by
  refine ⟨?_, rfl, fun m => rfl⟩
  cases mdl <;> rfl

/-- C10: every `/synthesize` rejection with status 503 or 400 is
side-effect free: the event trace is empty (so the upload is never read,
no scratch file is created, and the model is never invoked) and no scratch
file exists afterwards. -/
theorem synthesize_rejection_no_side_effects (env : Env) (mdl : Option F5TTS)
    (req : SynthRequest) (e : HTTPError)
    (hres : (synthesize_speech env mdl req).result = Except.error e)
    (hst : e.status = 503 ∨ e.status = 400) :
    (synthesize_speech env mdl req).events = []
    ∧ (synthesize_speech env mdl req).files = [] := by
  cases mdl with
  | none => exact ⟨rfl, rfl⟩
  | some m =>
    by_cases ht : (pyStrip req.text).isEmpty
    · constructor <;> simp [synthesize_speech, ht]
    · by_cases hr : (pyStrip req.ref_text).isEmpty
      · constructor <;> simp [synthesize_speech, ht, hr]
      · exfalso
        cases hup : env.uploadErr with
        | some err =>
            simp [synthesize_speech, ht, hr, hup] at hres
            rcases hst with h | h <;> rw [← hres] at h <;> simp at h
        | none =>
          cases hi : env.infer m (mkInferArgs req) with
          | error err =>
              simp [synthesize_speech, ht, hr, hup, hi] at hres
              rcases hst with h | h <;> rw [← hres] at h <;> simp at h
          | ok a =>
              cases hw : env.wavEncode (toNumpy a) 24000 with
              | error err =>
                  simp [synthesize_speech, ht, hr, hup, hi, hw] at hres
                  rcases hst with h | h <;> rw [← hres] at h <;> simp at h
              | ok b =>
                  simp [synthesize_speech, ht, hr, hup, hi, hw] at hres

/-- C10 witness: the 503 rejection of the concrete request with the model
handle unset has an empty effect trace and leaves no file. -/
theorem synthesize_rejection_no_side_effects_witness :
    (synthesize_speech envWit none reqWit).events = []
    ∧ (synthesize_speech envWit none reqWit).files = [] :=
  synthesize_rejection_no_side_effects envWit none reqWit
    { status := 503, detail := "Modelo no cargado" } rfl (Or.inl rfl)
